import Mathlib

/-!
Shallow embedding of the PeerTube `Video` sequelize model
(src/server/models/video.js) and verification of the specified
properties of its lifecycle hooks, naming helpers, magnet-descriptor
builder, federation representations and search dispatcher.

External collaborators (filesystem, torrent encoder, magnet codec,
field validators from helpers/custom-validators, configuration from
initializers/constants, the friends federation library) are not part
of the embedded source file; their observable results are threaded
through an explicit `Env` record, so every modelled operation is a
pure function of the environment and the video record.
-/

namespace PeerTube

/-- Bytes handed around by the filesystem / torrent collaborators
(JS Buffer), modelled abstractly as a list of byte values. -/
abbrev Bytes := List Nat

/-- A peer pod row (only its host is used by video.js). -/
structure Pod where
  host : String
deriving DecidableEq

/-- An author row with its optional pod (Author.Pod is null for a
locally registered author). -/
structure Author where
  name : String
  pod : Option Pod
deriving DecidableEq

/-- A tag row (only its name is used by video.js). -/
structure Tag where
  name : String
deriving DecidableEq

/-- The Video record with the populated associations used by the
instance methods (this.Author, this.Author.Pod, this.Tags). -/
structure Video where
  id : String
  name : String
  extname : String
  remoteId : Option String
  description : String
  infoHash : String
  duration : Nat
  author : Author
  tags : List Tag
  createdAt : Nat
  updatedAt : Nat
deriving DecidableEq

/-- Result of parse-torrent: the only field video.js reads is the
info hash. -/
structure ParsedTorrent where
  infoHash : String
deriving DecidableEq

/-- The magnet hash object handed to magnet-uri encode, and produced
by magnet-uri decode. -/
structure MagnetHash where
  xs : String
  announce : String
  urlList : List String
  infoHash : String
  name : String
deriving DecidableEq

/-- The payload submitted to friends.removeVideoToFriends. -/
structure RemovalPayload where
  name : String
  remoteId : String
deriving DecidableEq

/-- constants.CONFIG.WEBSERVER (modelled from the spec: the constants
module is not among the sources; only the fields video.js reads). -/
structure WebserverConfig where
  url : String
  ws : String
  hostname : String
  host : String
  port : Nat
deriving DecidableEq

/-- constants.REMOTE_SCHEME (modelled from the spec: the constants
module is not among the sources). -/
structure RemoteScheme where
  http : String
  ws : String
deriving DecidableEq

/-- constants.STATIC_PATHS (modelled from the spec: the constants
module is not among the sources). -/
structure StaticPaths where
  torrents : String
  webseed : String
  thumbnails : String
deriving DecidableEq

/-- Environment: configuration constants plus the observable results
of every external collaborator call made by video.js during one
lifecycle operation. -/
structure Env where
  webserver : WebserverConfig
  remoteScheme : RemoteScheme
  staticPaths : StaticPaths
  isUUIDValid : String → Bool
  isVideoNameValid : String → Bool
  extnameValid : String → Bool
  isVideoDescriptionValid : String → Bool
  isVideoDurationValid : Nat → Bool
  createTorrentResult : Except String Bytes
  writeTorrentFileResult : Except String Unit
  parseTorrent : Bytes → ParsedTorrent
  createThumbnailResult : Except String String
  createPreviewResult : Except String String
  unlinkThumbnailResult : Except String Unit
  unlinkFileResult : Except String Unit
  unlinkTorrentResult : Except String Unit
  unlinkPreviewResult : Except String Unit
  removeVideoToFriendsResult : RemovalPayload → Except String Unit
  readThumbnailResult : Except String Bytes
  binaryEncode : Bytes → String
  magnetEncode : MagnetHash → String
  magnetDecode : String → MagnetHash

/-- JS string coercion of a nullable string (null concatenates as
the text null). -/
def jsStr : Option String → String
  | none => "null"
  | some s => s

/-- isOwned: this.remoteId === null. -/
def isOwned (video : Video) : Bool :=
  video.remoteId.isNone

/-- getVideoFilename: id + extname when owned, remoteId + extname
otherwise. -/
def getVideoFilename (video : Video) : String :=
  if isOwned video then video.id ++ video.extname
  else jsStr video.remoteId ++ video.extname

/-- getThumbnailName: always id + .jpg (a copy of the thumbnail is
always kept locally). -/
def getThumbnailName (video : Video) : String :=
  video.id ++ ".jpg"

/-- getPreviewName: id + .jpg when owned, remoteId + .jpg otherwise. -/
def getPreviewName (video : Video) : String :=
  if isOwned video then video.id ++ ".jpg"
  else jsStr video.remoteId ++ ".jpg"

/-- getTorrentName: id + .torrent when owned, remoteId + .torrent
otherwise. -/
def getTorrentName (video : Video) : String :=
  if isOwned video then video.id ++ ".torrent"
  else jsStr video.remoteId ++ ".torrent"

/-- Modelled from the spec: the custom validator isVideoInfoHashValid
(helpers/custom-validators, not among the sources here) accepts exactly
the 40-character lowercase hexadecimal strings, the hex-40 pattern of
spec section 8. -/
def isVideoInfoHashValid (s : String) : Bool :=
  s.length == 40 &&
  s.data.all (fun c => c.isDigit || (decide ('a' ≤ c) && decide (c ≤ 'f')))

/-- The placeholder info hash assigned by beforeValidate (40 hex
characters, so it passes validation before the real hash exists). -/
def placeholderInfoHash : String :=
  "0123456789abcdef0123456789abcdef01234567"

/-- beforeValidate hook: for an owned video, assign the placeholder
info hash. -/
def beforeValidateHook (video : Video) : Video :=
  if isOwned video then { video with infoHash := placeholderInfoHash }
  else video

/-- The model definition's field validators, run by sequelize
validation: concrete hex-40 check for infoHash (modelled from the
spec), opaque environment-supplied validators for the other fields. -/
def validateVideo (env : Env) (video : Video) : Bool :=
  env.isUUIDValid video.id &&
  env.isVideoNameValid video.name &&
  env.extnameValid video.extname &&
  (match video.remoteId with
   | none => true
   | some r => env.isUUIDValid r) &&
  env.isVideoDescriptionValid video.description &&
  isVideoInfoHashValid video.infoHash &&
  env.isVideoDurationValid video.duration

/-- The torrent-encoding task of beforeCreate: createTorrent, write
the torrent file, overwrite infoHash with the parsed info hash, then
re-validate the record. -/
def torrentEncodingTask (env : Env) (video : Video) : Except String Video :=
  match env.createTorrentResult with
  | Except.error e => Except.error e
  | Except.ok torrent =>
    match env.writeTorrentFileResult with
    | Except.error e => Except.error e
    | Except.ok _ =>
      let video2 := { video with infoHash := (env.parseTorrent torrent).infoHash }
      if validateVideo env video2 then Except.ok video2
      else Except.error "ValidationError"

/-- The thumbnail-extraction task of beforeCreate (createThumbnail via
ffmpeg, opaque collaborator). -/
def createThumbnailTask (env : Env) : Except String String :=
  env.createThumbnailResult

/-- The preview-extraction task of beforeCreate (createPreview via
ffmpeg, opaque collaborator). -/
def createPreviewTask (env : Env) : Except String String :=
  env.createPreviewResult

/-- The three artifact tasks pushed by beforeCreate for an owned
video, in source order. -/
inductive CreateTask where
  | torrentEncoding
  | thumbnailExtraction
  | previewExtraction
deriving DecidableEq

/-- Forget the success payload of a task result. -/
def exceptToUnit {α : Type} : Except String α → Except String Unit
  | Except.error e => Except.error e
  | Except.ok _ => Except.ok ()

/-- The list of tasks beforeCreate pushes: the three artifact tasks
when the video is owned, none otherwise. -/
def beforeCreateTaskList (video : Video) : List CreateTask :=
  if isOwned video then
    [CreateTask.torrentEncoding, CreateTask.thumbnailExtraction,
     CreateTask.previewExtraction]
  else []

/-- Outcome of one beforeCreate task. -/
def runCreateTask (env : Env) (video : Video) : CreateTask → Except String Unit
  | CreateTask.torrentEncoding => exceptToUnit (torrentEncodingTask env video)
  | CreateTask.thumbnailExtraction => exceptToUnit (createThumbnailTask env)
  | CreateTask.previewExtraction => exceptToUnit (createPreviewTask env)

/-- Outcomes of the beforeCreate tasks, in source order. -/
def beforeCreateTaskOutcomes (env : Env) (video : Video) :
    List (Except String Unit) :=
  (beforeCreateTaskList video).map (runCreateTask env video)

/-- async.parallel joined on its final callback: ok when every task
succeeded, otherwise the error of a failing task (determinised here to
the first failing task in list order). -/
def parallelRun : List (Except String Unit) → Except String Unit
  | [] => Except.ok ()
  | Except.error e :: _ => Except.error e
  | Except.ok _ :: rest => parallelRun rest

/-- beforeCreate hook: for an owned video run the three artifact tasks
through async.parallel and propagate the first failure; the torrent
task mutates the record's infoHash. For a mirrored video do nothing. -/
def beforeCreate (env : Env) (video : Video) : Except String Video :=
  if isOwned video then
    match torrentEncodingTask env video with
    | Except.error e => Except.error e
    | Except.ok video2 =>
      match createThumbnailTask env with
      | Except.error e => Except.error e
      | Except.ok _ =>
        match createPreviewTask env with
        | Except.error e => Except.error e
        | Except.ok _ => Except.ok video2
  else Except.ok video

/-- Owned-path creation as sequelize runs it: beforeValidate assigns
the placeholder, the validators run, then beforeCreate runs the
artifact pipeline. -/
def createVideo (env : Env) (video : Video) : Except String Video :=
  if validateVideo env (beforeValidateHook video) then
    beforeCreate env (beforeValidateHook video)
  else Except.error "ValidationError"

/-- Observable side effect on the federation collaborator. -/
inductive Effect where
  | broadcastRemoval (params : RemovalPayload)
deriving DecidableEq

/-- The tasks pushed by afterDestroy, in source order. -/
inductive DestroyTask where
  | removeThumbnail
  | removeFile
  | removeTorrent
  | removePreview
  | notifyFriends (params : RemovalPayload)
deriving DecidableEq

/-- afterDestroy task list: always the thumbnail removal; when the
video is owned, additionally the raw file, torrent and preview
removals and the federation removal broadcast with payload
name and remoteId set to this video's name and local id. -/
def afterDestroyTasks (video : Video) : List DestroyTask :=
  [DestroyTask.removeThumbnail] ++
  (if isOwned video then
    [DestroyTask.removeFile, DestroyTask.removeTorrent,
     DestroyTask.removePreview,
     DestroyTask.notifyFriends { name := video.name, remoteId := video.id }]
   else [])

/-- Run one afterDestroy task: the four unlink tasks report their
filesystem outcome; the friends task invokes the removal broadcast,
discards its result and calls back with no error. -/
def runDestroyTask (env : Env) :
    DestroyTask → List Effect × Except String Unit
  | DestroyTask.removeThumbnail => ([], env.unlinkThumbnailResult)
  | DestroyTask.removeFile => ([], env.unlinkFileResult)
  | DestroyTask.removeTorrent => ([], env.unlinkTorrentResult)
  | DestroyTask.removePreview => ([], env.unlinkPreviewResult)
  | DestroyTask.notifyFriends params =>
    let _ := env.removeVideoToFriendsResult params
    ([Effect.broadcastRemoval params], Except.ok ())

/-- afterDestroy hook: run the task list through async.parallel,
collecting the federation effects and joining the task outcomes. -/
def afterDestroy (env : Env) (video : Video) :
    List Effect × Except String Unit :=
  let results := (afterDestroyTasks video).map (runDestroyTask env)
  ((results.map Prod.fst).flatten, parallelRun (results.map Prod.snd))

/-- Common tail of generateMagnetUri: assemble xs, announce and
urlList from the base origins and encode the magnet hash. -/
def magnetFor (env : Env) (video : Video)
    (baseUrlHttp baseUrlWs : String) : String :=
  env.magnetEncode
    { xs := baseUrlHttp ++ env.staticPaths.torrents ++ getTorrentName video
      announce := baseUrlWs ++ "/tracker/socket"
      urlList := [baseUrlHttp ++ env.staticPaths.webseed ++ getVideoFilename video]
      infoHash := video.infoHash
      name := video.name }

/-- generateMagnetUri: the base origins come from this pod's web
server configuration when the video is owned, and from the owning
author's pod host otherwise; a mirrored video without a populated pod
has no origin (the JS would fault reading Author.Pod.host). -/
def generateMagnetUri (env : Env) (video : Video) : Option String :=
  if isOwned video then
    some (magnetFor env video env.webserver.url
      (env.webserver.ws ++ "://" ++ env.webserver.hostname ++ ":" ++
        toString env.webserver.port))
  else
    match video.author.pod with
    | none => none
    | some pod =>
      some (magnetFor env video
        (env.remoteScheme.http ++ "://" ++ pod.host)
        (env.remoteScheme.ws ++ "://" ++ pod.host))

/-- The public JSON produced by toFormatedJSON. -/
structure FormatedJSON where
  id : String
  name : String
  description : String
  podHost : String
  isLocal : Bool
  magnetUri : String
  author : String
  duration : Nat
  tags : List String
  thumbnailPath : String
  createdAt : Nat
  updatedAt : Nat
deriving DecidableEq

/-- toFormatedJSON: podHost is the author's pod host when a pod is
associated, otherwise this pod's own configured host; isLocal is
isOwned; the magnet URI is generated inline. -/
def toFormatedJSON (env : Env) (video : Video) : Option FormatedJSON :=
  match generateMagnetUri env video with
  | none => none
  | some magnet =>
    some { id := video.id
           name := video.name
           description := video.description
           podHost :=
             match video.author.pod with
             | some pod => pod.host
             | none => env.webserver.host
           isLocal := isOwned video
           magnetUri := magnet
           author := video.author.name
           duration := video.duration
           tags := video.tags.map Tag.name
           thumbnailPath := env.staticPaths.thumbnails ++ "/" ++ getThumbnailName video
           createdAt := video.createdAt
           updatedAt := video.updatedAt }

/-- The federation add representation produced by toAddRemoteJSON. -/
structure RemoteVideoAdd where
  name : String
  description : String
  infoHash : String
  remoteId : String
  author : String
  duration : Nat
  thumbnailData : String
  tags : List String
  createdAt : Nat
  updatedAt : Nat
  extname : String
deriving DecidableEq

/-- The federation update representation produced by
toUpdateRemoteJSON. -/
structure RemoteVideoUpdate where
  name : String
  description : String
  infoHash : String
  remoteId : String
  author : String
  duration : Nat
  tags : List String
  createdAt : Nat
  updatedAt : Nat
  extname : String
deriving DecidableEq

/-- toAddRemoteJSON: read the thumbnail file, fail on a read error,
otherwise the full metadata plus the binary-safe-encoded thumbnail
bytes, with remoteId set to this video's own local id. -/
def toAddRemoteJSON (env : Env) (video : Video) :
    Except String RemoteVideoAdd :=
  match env.readThumbnailResult with
  | Except.error e => Except.error e
  | Except.ok thumbnailBytes =>
    Except.ok
      { name := video.name
        description := video.description
        infoHash := video.infoHash
        remoteId := video.id
        author := video.author.name
        duration := video.duration
        thumbnailData := env.binaryEncode thumbnailBytes
        tags := video.tags.map Tag.name
        createdAt := video.createdAt
        updatedAt := video.updatedAt
        extname := video.extname }

/-- toUpdateRemoteJSON: the same metadata without thumbnail bytes,
with remoteId set to this video's own local id. -/
def toUpdateRemoteJSON (video : Video) : RemoteVideoUpdate :=
  { name := video.name
    description := video.description
    infoHash := video.infoHash
    remoteId := video.id
    author := video.author.name
    duration := video.duration
    tags := video.tags.map Tag.name
    createdAt := video.createdAt
    updatedAt := video.updatedAt
    extname := video.extname }

/-- SQL LIKE with the pattern wrapped in percent wildcards: substring
containment of the value in the column text. -/
def sqlLike (value s : String) : Bool :=
  decide (value.data <:+: s.data)

/-- The where/include filter built by
searchAndPopulateAuthorAndPodAndTags, one constructor per dispatch
branch. -/
inductive SearchFilter where
  | byInfoHash (infoHash : String)
  | byTagsSub (value : String)
  | byHostSub (value : String)
  | byAuthorSub (value : String)
  | byFieldSub (field value : String)
deriving DecidableEq

/-- The field dispatch of searchAndPopulateAuthorAndPodAndTags: an
if-else chain on the field name, falling through to a substring filter
on the named column. -/
def dispatchSearch (env : Env) (value field : String) : SearchFilter :=
  if field = "magnetUri" then
    SearchFilter.byInfoHash (env.magnetDecode value).infoHash
  else if field = "tags" then SearchFilter.byTagsSub value
  else if field = "host" then SearchFilter.byHostSub value
  else if field = "author" then SearchFilter.byAuthorSub value
  else SearchFilter.byFieldSub field value

/-- Column lookup for the default substring branch: the string-valued
columns of the Video model. -/
def videoFieldValue (video : Video) : String → Option String
  | "id" => some video.id
  | "name" => some video.name
  | "extname" => some video.extname
  | "remoteId" => video.remoteId
  | "description" => some video.description
  | "infoHash" => some video.infoHash
  | _ => none

/-- Row semantics of a search filter over a populated video row:
exact info-hash equality; tag-membership subquery on tag-name
substring; required pod join with host substring; author-name
substring; column substring for the default branch. -/
def matchesFilter (f : SearchFilter) (video : Video) : Bool :=
  match f with
  | SearchFilter.byInfoHash h => video.infoHash == h
  | SearchFilter.byTagsSub value =>
    video.tags.any (fun t => sqlLike value t.name)
  | SearchFilter.byHostSub value =>
    match video.author.pod with
    | none => false
    | some pod => sqlLike value pod.host
  | SearchFilter.byAuthorSub value => sqlLike value video.author.name
  | SearchFilter.byFieldSub field value =>
    match videoFieldValue video field with
    | none => false
    | some s => sqlLike value s

/-- Sample owned video used to instantiate hypothesis-bearing theorems. -/
def sampleOwned : Video :=
  { id := "11111111-1111-4111-8111-111111111111"
    name := "Demo"
    extname := ".mp4"
    remoteId := none
    description := "a demo video"
    infoHash := "0123456789abcdef0123456789abcdef01234567"
    duration := 120
    author := { name := "alice", pod := none }
    tags := [{ name := "fun" }]
    createdAt := 1
    updatedAt := 2 }

/-- Sample mirrored video used to instantiate hypothesis-bearing
theorems. -/
def sampleMirrored : Video :=
  { id := "22222222-2222-4222-8222-222222222222"
    name := "Mirror"
    extname := ".mp4"
    remoteId := some "abc"
    description := "a mirrored video"
    infoHash := "aaaaaaaaaabbbbbbbbbbccccccccccdddddddddd"
    duration := 60
    author := { name := "bob", pod := some { host := "peer.example.com" } }
    tags := []
    createdAt := 3
    updatedAt := 4 }

/-- Sample environment with succeeding collaborators used to
instantiate hypothesis-bearing theorems. -/
def sampleEnv : Env :=
  { webserver :=
      { url := "http://localhost:9000"
        ws := "ws"
        hostname := "localhost"
        host := "localhost:9000"
        port := 9000 }
    remoteScheme := { http := "https", ws := "wss" }
    staticPaths :=
      { torrents := "/static/torrents/"
        webseed := "/static/webseeds/"
        thumbnails := "/static/thumbnails" }
    isUUIDValid := fun _ => true
    isVideoNameValid := fun _ => true
    extnameValid := fun _ => true
    isVideoDescriptionValid := fun _ => true
    isVideoDurationValid := fun _ => true
    createTorrentResult := Except.ok []
    writeTorrentFileResult := Except.ok ()
    parseTorrent := fun _ =>
      { infoHash := "aaaaaaaaaabbbbbbbbbbccccccccccdddddddddd" }
    createThumbnailResult := Except.ok "thumb.jpg"
    createPreviewResult := Except.ok "preview.jpg"
    unlinkThumbnailResult := Except.ok ()
    unlinkFileResult := Except.ok ()
    unlinkTorrentResult := Except.ok ()
    unlinkPreviewResult := Except.ok ()
    removeVideoToFriendsResult := fun _ => Except.ok ()
    readThumbnailResult := Except.ok [7]
    binaryEncode := fun _ => "THUMBDATA"
    magnetEncode := fun m => "magnet:?xt=urn:btih:" ++ m.infoHash ++ "&dn=" ++ m.name
    magnetDecode := fun s =>
      { xs := "", announce := "", urlList := [], infoHash := s, name := "" } }

/-- Environment whose torrent encoder yields exactly the placeholder
info hash (the encoder is an opaque collaborator, so this is a
possible run). -/
def placeholderEnv : Env :=
  { sampleEnv with parseTorrent := fun _ => { infoHash := placeholderInfoHash } }

/-- Environment whose thumbnail-extraction task fails. -/
def thumbErrEnv : Env :=
  { sampleEnv with createThumbnailResult := Except.error "ffmpeg failed" }

/-- The record produced by a successful owned creation of sampleOwned
under sampleEnv. -/
def goodCreated : Video :=
  { sampleOwned with infoHash := "aaaaaaaaaabbbbbbbbbbccccccccccdddddddddd" }

/-- The public JSON of sampleOwned under sampleEnv. -/
def sampleFormated : FormatedJSON :=
  { id := "11111111-1111-4111-8111-111111111111"
    name := "Demo"
    description := "a demo video"
    podHost := "localhost:9000"
    isLocal := true
    magnetUri := "magnet:?xt=urn:btih:0123456789abcdef0123456789abcdef01234567&dn=Demo"
    author := "alice"
    duration := 120
    tags := ["fun"]
    thumbnailPath := "/static/thumbnails/11111111-1111-4111-8111-111111111111.jpg"
    createdAt := 1
    updatedAt := 2 }

/-- Claim C5: isOwned returns true if and only if remoteId is null;
the equivalence holds for every video state, in particular after
creation and after any update. -/
theorem isOwned_iff_remoteId_none (video : Video) :
    isOwned video = true ↔ video.remoteId = none := by
  cases h : video.remoteId <;> simp [isOwned, h]

/-- Claim C6: the naming helpers are pure functions of ownership, id,
remoteId and extname: the video file name is id ++ extname when owned
and remoteId ++ extname otherwise; the thumbnail name is id ++ .jpg in
every case; the preview and torrent names branch the same way with
fixed extensions .jpg and .torrent. -/
theorem naming_functions_spec (video : Video) :
    (isOwned video = true →
      getVideoFilename video = video.id ++ video.extname ∧
      getPreviewName video = video.id ++ ".jpg" ∧
      getTorrentName video = video.id ++ ".torrent") ∧
    (∀ r, video.remoteId = some r →
      getVideoFilename video = r ++ video.extname ∧
      getPreviewName video = r ++ ".jpg" ∧
      getTorrentName video = r ++ ".torrent") ∧
    getThumbnailName video = video.id ++ ".jpg" ∧
    (∀ w : Video, video.id = w.id → video.remoteId = w.remoteId →
      video.extname = w.extname →
      getVideoFilename video = getVideoFilename w ∧
      getThumbnailName video = getThumbnailName w ∧
      getPreviewName video = getPreviewName w ∧
      getTorrentName video = getTorrentName w) := by
  refine ⟨?_, ?_, rfl, ?_⟩
  · intro h
    simp [getVideoFilename, getPreviewName, getTorrentName, h]
  · intro r hr
    simp [getVideoFilename, getPreviewName, getTorrentName, isOwned, jsStr, hr]
  · intro w h1 h2 h3
    simp [getVideoFilename, getThumbnailName, getPreviewName, getTorrentName,
      isOwned, jsStr, h1, h2, h3]

/-- Witness for C6: the naming equations evaluated on the sample owned
video and on the sample mirrored video with remoteId abc. -/
theorem naming_functions_spec_witness :
    getVideoFilename sampleOwned =
      "11111111-1111-4111-8111-111111111111.mp4" ∧
    getVideoFilename sampleMirrored = "abc.mp4" ∧
    getThumbnailName sampleMirrored =
      "22222222-2222-4222-8222-222222222222.jpg" := by
  refine ⟨?_, ?_, ?_⟩
  · have h := (naming_functions_spec sampleOwned).1 rfl
    rw [h.1]; rfl
  · have h := (naming_functions_spec sampleMirrored).2.1 "abc" rfl
    rw [h.1]; rfl
  · exact (naming_functions_spec sampleMirrored).2.2.1

/-- Claim C1 (amended): after an owned creation completes
successfully, the record's infoHash equals the info hash parsed from
the encoded torrent, it matches the hex-40 pattern, and it differs
from the placeholder whenever the parsed info hash does (the
placeholder assigned in beforeValidate is always overwritten). -/
theorem createVideo_infoHash_overwritten (env : Env) (video0 video : Video)
    (h0 : video0.remoteId = none)
    (hok : createVideo env video0 = Except.ok video) :
    ∃ t, env.createTorrentResult = Except.ok t ∧
      video.infoHash = (env.parseTorrent t).infoHash ∧
      isVideoInfoHashValid video.infoHash = true ∧
      ((env.parseTorrent t).infoHash ≠ placeholderInfoHash →
        video.infoHash ≠ placeholderInfoHash) := by
  have hown1 : isOwned (beforeValidateHook video0) = true := by
    simp [beforeValidateHook, isOwned, h0]
  unfold createVideo at hok
  split at hok
  case isFalse => exact absurd hok (by simp)
  case isTrue hval =>
    unfold beforeCreate at hok
    split at hok
    case isFalse hf => exact absurd hown1 hf
    case isTrue =>
      cases henc : env.createTorrentResult with
      | error e => simp [torrentEncodingTask, henc] at hok
      | ok t =>
        cases hw : env.writeTorrentFileResult with
        | error e => simp [torrentEncodingTask, henc, hw] at hok
        | ok u =>
          simp only [torrentEncodingTask, henc, hw] at hok
          split at hok
          next e heq => exact absurd hok (by simp)
          next video2 heq =>
            split at heq
            next hval2 =>
              simp only [Except.ok.injEq] at heq
              cases hth : env.createThumbnailResult with
              | error e => simp [createThumbnailTask, hth] at hok
              | ok s1 =>
                cases hpv : env.createPreviewResult with
                | error e => simp [createThumbnailTask, createPreviewTask, hth, hpv] at hok
                | ok s2 =>
                  simp only [createThumbnailTask, createPreviewTask, hth, hpv,
                    Except.ok.injEq] at hok
                  refine ⟨t, rfl, ?_, ?_, ?_⟩
                  · rw [← hok, ← heq]
                  · simp only [validateVideo, Bool.and_eq_true] at hval2
                    rw [← hok, ← heq]
                    exact hval2.1.2
                  · intro hne
                    rw [← hok, ← heq]
                    exact hne
            next => exact absurd heq (by simp)

/-- Witness for C1: a concrete successful owned creation whose final
info hash is well-formed and differs from the placeholder. -/
theorem createVideo_infoHash_overwritten_witness :
    isVideoInfoHashValid goodCreated.infoHash = true ∧
    goodCreated.infoHash ≠ placeholderInfoHash := by
  obtain ⟨t, ht, h1, h2, h3⟩ :=
    createVideo_infoHash_overwritten sampleEnv sampleOwned goodCreated rfl rfl
  have hne : (sampleEnv.parseTorrent t).infoHash ≠ placeholderInfoHash := by
    show ("aaaaaaaaaabbbbbbbbbbccccccccccdddddddddd" : String) ≠ placeholderInfoHash
    decide
  exact ⟨h2, h3 hne⟩

/-- Counterexample for C1 as frozen: the torrent encoder is an opaque
collaborator, and in a run where the parsed info hash is exactly the
placeholder string, creation of an owned video completes successfully
with infoHash still equal to the placeholder. -/
theorem createVideo_placeholder_counterexample :
    createVideo placeholderEnv sampleOwned = Except.ok sampleOwned ∧
    sampleOwned.remoteId = none ∧
    sampleOwned.infoHash = placeholderInfoHash :=
  ⟨rfl, rfl, rfl⟩

/-- Claim C2: for an owned video, beforeCreate launches exactly the
three artifact tasks; creation succeeds if and only if all three
complete successfully; if any task errs, beforeCreate surfaces an
error of one of the tasks; and when the failing tasks all carry the
same error, that error is the one surfaced. -/
theorem beforeCreate_three_tasks (env : Env) (video : Video)
    (h : isOwned video = true) :
    beforeCreateTaskList video =
      [CreateTask.torrentEncoding, CreateTask.thumbnailExtraction,
       CreateTask.previewExtraction] ∧
    (beforeCreateTaskList video).length = 3 ∧
    ((∃ v2, beforeCreate env video = Except.ok v2) ↔
      ∀ r ∈ beforeCreateTaskOutcomes env video, r = Except.ok ()) ∧
    (∀ e, Except.error e ∈ beforeCreateTaskOutcomes env video →
      ∃ e2, beforeCreate env video = Except.error e2 ∧
        Except.error e2 ∈ beforeCreateTaskOutcomes env video) ∧
    (∀ e, Except.error e ∈ beforeCreateTaskOutcomes env video →
      (∀ e2, Except.error e2 ∈ beforeCreateTaskOutcomes env video → e2 = e) →
      beforeCreate env video = Except.error e) := by
  refine ⟨by simp [beforeCreateTaskList, h], by simp [beforeCreateTaskList, h], ?_, ?_, ?_⟩ <;>
  · cases ht : torrentEncodingTask env video <;>
      cases hth : createThumbnailTask env <;>
        cases hpv : createPreviewTask env <;>
          simp_all [beforeCreate, beforeCreateTaskOutcomes, beforeCreateTaskList,
            runCreateTask, exceptToUnit, h, ht, hth, hpv]

/-- Witness for C2: with a failing thumbnail task and the other two
tasks succeeding, the pipeline pushes the three tasks and surfaces
exactly the thumbnail error. -/
theorem beforeCreate_three_tasks_witness :
    beforeCreateTaskList sampleOwned =
      [CreateTask.torrentEncoding, CreateTask.thumbnailExtraction,
       CreateTask.previewExtraction] ∧
    beforeCreate thumbErrEnv sampleOwned = Except.error "ffmpeg failed" := by
  have houtcomes : beforeCreateTaskOutcomes thumbErrEnv sampleOwned =
      [Except.ok (), Except.error "ffmpeg failed", Except.ok ()] := rfl
  refine ⟨(beforeCreate_three_tasks thumbErrEnv sampleOwned rfl).1, ?_⟩
  refine (beforeCreate_three_tasks thumbErrEnv sampleOwned rfl).2.2.2.2
    "ffmpeg failed" ?_ ?_
  · rw [houtcomes]; simp
  · intro e2 h2
    rw [houtcomes] at h2
    simpa using h2

/-- Claim C3: destruction always runs the thumbnail removal; exactly
when the video is owned it additionally runs the raw-file, torrent and
preview removals and submits the federation removal payload with the
video's name and its local id as remoteId; for a mirrored video none
of the owned-only tasks run and no federation payload is submitted. -/
theorem afterDestroy_tasks_spec (video : Video) :
    DestroyTask.removeThumbnail ∈ afterDestroyTasks video ∧
    (isOwned video = true →
      afterDestroyTasks video =
        [DestroyTask.removeThumbnail, DestroyTask.removeFile,
         DestroyTask.removeTorrent, DestroyTask.removePreview,
         DestroyTask.notifyFriends { name := video.name, remoteId := video.id }]) ∧
    (isOwned video = false → afterDestroyTasks video = [DestroyTask.removeThumbnail]) ∧
    (∀ env : Env, isOwned video = true →
      (afterDestroy env video).1 =
        [Effect.broadcastRemoval { name := video.name, remoteId := video.id }]) ∧
    (∀ env : Env, isOwned video = false → (afterDestroy env video).1 = []) := by
  refine ⟨?_, ?_, ?_, ?_, ?_⟩
  · cases h : isOwned video <;> simp [afterDestroyTasks, h]
  · intro h; simp [afterDestroyTasks, h]
  · intro h; simp [afterDestroyTasks, h]
  · intro env h; simp [afterDestroy, afterDestroyTasks, runDestroyTask, h]
  · intro env h; simp [afterDestroy, afterDestroyTasks, runDestroyTask, h]

/-- Witness for C3: the destroy task lists of a concrete owned video
and a concrete mirrored video, and the federation payload submitted
for the owned one. -/
theorem afterDestroy_tasks_spec_witness :
    afterDestroyTasks sampleOwned =
      [DestroyTask.removeThumbnail, DestroyTask.removeFile,
       DestroyTask.removeTorrent, DestroyTask.removePreview,
       DestroyTask.notifyFriends
         { name := "Demo", remoteId := "11111111-1111-4111-8111-111111111111" }] ∧
    afterDestroyTasks sampleMirrored = [DestroyTask.removeThumbnail] ∧
    (afterDestroy sampleEnv sampleOwned).1 =
      [Effect.broadcastRemoval
        { name := "Demo", remoteId := "11111111-1111-4111-8111-111111111111" }] :=
  ⟨(afterDestroy_tasks_spec sampleOwned).2.1 rfl,
   (afterDestroy_tasks_spec sampleMirrored).2.2.1 rfl,
   (afterDestroy_tasks_spec sampleOwned).2.2.2.1 sampleEnv rfl⟩

/-- Claim C8: the peer-notification destroy task invokes the removal
broadcast and always completes successfully, consuming no result from
it; consequently the outcome of afterDestroy does not depend on the
federation broadcast's own outcome. -/
theorem notifyFriends_task_nonfatal (env : Env) (params : RemovalPayload) :
    runDestroyTask env (DestroyTask.notifyFriends params) =
      ([Effect.broadcastRemoval params], Except.ok ()) ∧
    (∀ fed video,
      afterDestroy { env with removeVideoToFriendsResult := fed } video =
        afterDestroy env video) := by
  refine ⟨rfl, ?_⟩
  intro fed video
  have hfun : runDestroyTask { env with removeVideoToFriendsResult := fed } =
      runDestroyTask env := by
    funext t
    cases t <;> rfl
  simp [afterDestroy, hfun]

/-- Claim C4: the search dispatch is a discriminated choice: magnetUri
filters by exact equality on the info hash decoded from the value and
ignores the URI's other fields; tags filters by a tag-membership
subquery on substring match; host filters on the author's pod host
substring with the pod join required, so videos whose author has no
pod never match; author filters on author-name substring; any other
field name falls through to a substring filter on that column. -/
theorem search_dispatch_spec (env : Env) (value field : String) (video : Video) :
    dispatchSearch env value "magnetUri" =
      SearchFilter.byInfoHash (env.magnetDecode value).infoHash ∧
    (∀ value2, (env.magnetDecode value).infoHash = (env.magnetDecode value2).infoHash →
      dispatchSearch env value "magnetUri" = dispatchSearch env value2 "magnetUri") ∧
    (matchesFilter (SearchFilter.byInfoHash (env.magnetDecode value).infoHash) video = true ↔
      video.infoHash = (env.magnetDecode value).infoHash) ∧
    dispatchSearch env value "tags" = SearchFilter.byTagsSub value ∧
    (matchesFilter (SearchFilter.byTagsSub value) video = true ↔
      ∃ t, t ∈ video.tags ∧ sqlLike value t.name = true) ∧
    dispatchSearch env value "host" = SearchFilter.byHostSub value ∧
    (video.author.pod = none →
      matchesFilter (SearchFilter.byHostSub value) video = false) ∧
    (∀ pod, video.author.pod = some pod →
      (matchesFilter (SearchFilter.byHostSub value) video = true ↔
        sqlLike value pod.host = true)) ∧
    dispatchSearch env value "author" = SearchFilter.byAuthorSub value ∧
    matchesFilter (SearchFilter.byAuthorSub value) video =
      sqlLike value video.author.name ∧
    (field ≠ "magnetUri" → field ≠ "tags" → field ≠ "host" → field ≠ "author" →
      dispatchSearch env value field = SearchFilter.byFieldSub field value) := by
  refine ⟨rfl, ?_, ?_, rfl, ?_, rfl, ?_, ?_, rfl, rfl, ?_⟩
  · intro value2 hdec
    simp [dispatchSearch, hdec]
  · simp [matchesFilter, beq_iff_eq]
  · simp [matchesFilter, List.any_eq_true]
  · intro hp
    simp [matchesFilter, hp]
  · intro pod hp
    simp [matchesFilter, hp]
  · intro h1 h2 h3 h4
    simp [dispatchSearch, h1, h2, h3, h4]

/-- Witness for C4: a locally authored video never matches the host
filter, and an unknown field name dispatches to the default substring
filter. -/
theorem search_dispatch_spec_witness :
    matchesFilter (SearchFilter.byHostSub "peer") sampleOwned = false ∧
    dispatchSearch sampleEnv "x" "description" =
      SearchFilter.byFieldSub "description" "x" :=
  ⟨(search_dispatch_spec sampleEnv "peer" "description" sampleOwned).2.2.2.2.2.2.1 rfl,
   (search_dispatch_spec sampleEnv "x" "description" sampleOwned).2.2.2.2.2.2.2.2.2.2
     (by decide) (by decide) (by decide) (by decide)⟩

/-- Claim C7: the federation add representation is the full metadata
plus the binary-safe-encoded thumbnail bytes, the update
representation is the same metadata without thumbnail bytes, and both
set remoteId to the video's own local id. -/
theorem remote_json_representations_spec (env : Env) (video : Video) :
    (∀ bytes, env.readThumbnailResult = Except.ok bytes →
      toAddRemoteJSON env video = Except.ok
        { name := video.name
          description := video.description
          infoHash := video.infoHash
          remoteId := video.id
          author := video.author.name
          duration := video.duration
          thumbnailData := env.binaryEncode bytes
          tags := video.tags.map Tag.name
          createdAt := video.createdAt
          updatedAt := video.updatedAt
          extname := video.extname }) ∧
    toUpdateRemoteJSON video =
      { name := video.name
        description := video.description
        infoHash := video.infoHash
        remoteId := video.id
        author := video.author.name
        duration := video.duration
        tags := video.tags.map Tag.name
        createdAt := video.createdAt
        updatedAt := video.updatedAt
        extname := video.extname } ∧
    (∀ add, toAddRemoteJSON env video = Except.ok add → add.remoteId = video.id) ∧
    (toUpdateRemoteJSON video).remoteId = video.id := by
  refine ⟨?_, rfl, ?_, rfl⟩
  · intro bytes hb
    simp [toAddRemoteJSON, hb]
  · intro add hadd
    cases hb : env.readThumbnailResult with
    | error e => simp [toAddRemoteJSON, hb] at hadd
    | ok bytes =>
      simp only [toAddRemoteJSON, hb, Except.ok.injEq] at hadd
      rw [← hadd]

/-- Witness for C7: the add representation of the sample owned video
under the sample environment. -/
theorem remote_json_representations_spec_witness :
    toAddRemoteJSON sampleEnv sampleOwned = Except.ok
      { name := "Demo"
        description := "a demo video"
        infoHash := "0123456789abcdef0123456789abcdef01234567"
        remoteId := "11111111-1111-4111-8111-111111111111"
        author := "alice"
        duration := 120
        thumbnailData := "THUMBDATA"
        tags := ["fun"]
        createdAt := 1
        updatedAt := 2
        extname := ".mp4" } := by
  have h := (remote_json_representations_spec sampleEnv sampleOwned).1 [7] rfl
  rw [h]
  rfl

/-- Claim C9: generateMagnetUri builds the base HTTP origin from this
pod's web-server configuration for an owned video and from the owning
pod's host for a mirrored one, sets xs to the base HTTP origin plus
the static torrent path plus the torrent name, urlList to the
singleton of the base HTTP origin plus the static web-seed path plus
the video file name, announce to the tracker-protocol origin plus
/tracker/socket, and encodes the resulting magnet hash. -/
theorem generateMagnetUri_spec (env : Env) (video : Video) :
    (isOwned video = true →
      generateMagnetUri env video = some (env.magnetEncode
        { xs := env.webserver.url ++ env.staticPaths.torrents ++ getTorrentName video
          announce := env.webserver.ws ++ "://" ++ env.webserver.hostname ++ ":" ++
            toString env.webserver.port ++ "/tracker/socket"
          urlList := [env.webserver.url ++ env.staticPaths.webseed ++ getVideoFilename video]
          infoHash := video.infoHash
          name := video.name })) ∧
    (∀ pod, isOwned video = false → video.author.pod = some pod →
      generateMagnetUri env video = some (env.magnetEncode
        { xs := env.remoteScheme.http ++ "://" ++ pod.host ++
            env.staticPaths.torrents ++ getTorrentName video
          announce := env.remoteScheme.ws ++ "://" ++ pod.host ++ "/tracker/socket"
          urlList := [env.remoteScheme.http ++ "://" ++ pod.host ++
            env.staticPaths.webseed ++ getVideoFilename video]
          infoHash := video.infoHash
          name := video.name })) := by
  constructor
  · intro h
    simp [generateMagnetUri, magnetFor, h, String.append_assoc]
  · intro pod h hp
    simp [generateMagnetUri, magnetFor, h, hp, String.append_assoc]

/-- Witness for C9: concrete magnet URIs for the sample owned and
mirrored videos. -/
theorem generateMagnetUri_spec_witness :
    generateMagnetUri sampleEnv sampleOwned =
      some "magnet:?xt=urn:btih:0123456789abcdef0123456789abcdef01234567&dn=Demo" ∧
    generateMagnetUri sampleEnv sampleMirrored =
      some "magnet:?xt=urn:btih:aaaaaaaaaabbbbbbbbbbccccccccccdddddddddd&dn=Mirror" := by
  constructor
  · rw [(generateMagnetUri_spec sampleEnv sampleOwned).1 rfl]
    rfl
  · rw [(generateMagnetUri_spec sampleEnv sampleMirrored).2
      { host := "peer.example.com" } rfl rfl]
    rfl

/-- Claim C10: toFormatedJSON sets isLocal to isOwned and podHost to
the author's pod host when a pod is associated, and to this pod's own
configured web-server host otherwise, so every locally-authored video
reports this pod's host. -/
theorem toFormatedJSON_isLocal_podHost (env : Env) (video : Video) :
    (∀ j, toFormatedJSON env video = some j →
      j.isLocal = isOwned video ∧
      j.podHost = (match video.author.pod with
        | some pod => pod.host
        | none => env.webserver.host)) ∧
    (∀ j, toFormatedJSON env video = some j → video.author.pod = none →
      j.podHost = env.webserver.host) := by
  have key : ∀ j, toFormatedJSON env video = some j →
      j.isLocal = isOwned video ∧
      j.podHost = (match video.author.pod with
        | some pod => pod.host
        | none => env.webserver.host) := by
    intro j h
    unfold toFormatedJSON at h
    cases hm : generateMagnetUri env video with
    | none => rw [hm] at h; simp at h
    | some magnet =>
      rw [hm] at h
      simp only [Option.some.injEq] at h
      rw [← h]
      exact ⟨rfl, rfl⟩
  refine ⟨key, ?_⟩
  intro j h hp
  have h2 := (key j h).2
  rw [hp] at h2
  exact h2

/-- Witness for C10: the public JSON of the sample owned video has
isLocal true and reports this pod's configured host. -/
theorem toFormatedJSON_isLocal_podHost_witness :
    sampleFormated.isLocal = isOwned sampleOwned ∧
    sampleFormated.podHost = sampleEnv.webserver.host :=
  ⟨((toFormatedJSON_isLocal_podHost sampleEnv sampleOwned).1 sampleFormated rfl).1,
   (toFormatedJSON_isLocal_podHost sampleEnv sampleOwned).2 sampleFormated rfl rfl⟩

end PeerTube
